import Mathlib

/-!
Shallow embedding of the section-placement validation engine of the RGBDS
linker (src/link/section.c): the static layout tables, the per-section
placement validator `doSanityChecks`, the name-keyed section registry, and
the validate-all sweep with its process-global failure flag.

Machine integers of the C source (`uint16_t org`, `uint16_t size`,
`uint32_t bank`, `uint32_t alignMask`) are modelled as `Nat`: every
arithmetic expression of the translated code (`org + size`,
`startaddr + maxsize - 1`, comparisons, bitwise and) is performed by the C
program in (promoted) `int` arithmetic on values below 2^16 or compared
without arithmetic, so no wrap-around is reachable and `Nat` is faithful.
-/

namespace Rgbds

/-- The closed enumeration of memory region kinds (`enum SectionType`).
The C validator first checks `type < 0 || type >= SECTTYPE_INVALID`; in
this typed model every representable value is one of the eight valid
kinds, so that structural check is vacuously passing and emits no
diagnostic. -/
inductive SectionType where
  | ROM0
  | ROMX
  | VRAM
  | SRAM
  | WRAM0
  | WRAMX
  | OAM
  | HRAM
deriving DecidableEq, Repr

open SectionType

/-- `uint16_t startaddr[]` from src/link/section.c. -/
def startaddr : SectionType → Nat
  | ROM0  => 0x0000
  | ROMX  => 0x4000
  | VRAM  => 0x8000
  | SRAM  => 0xA000
  | WRAM0 => 0xC000
  | WRAMX => 0xD000
  | OAM   => 0xFE00
  | HRAM  => 0xFF80

/-- `uint16_t maxsize[]` from src/link/section.c. -/
def maxsize : SectionType → Nat
  | ROM0  => 0x4000
  | ROMX  => 0x4000
  | VRAM  => 0x2000
  | SRAM  => 0x2000
  | WRAM0 => 0x1000
  | WRAMX => 0x1000
  | OAM   => 0x00A0
  | HRAM  => 0x007F

/-- `uint32_t bankranges[][2]` from src/link/section.c, as
(min bank, max bank) per region kind. Modelled from the spec: the
`BANK_MIN_*`/`BANK_MAX_*` constants live in link/section.h, which is not
under src; the spec (§3) describes the table as the inclusive legal bank
range of each kind, degenerate (min = max) exactly for the unbanked kinds
(fixed ROM, fixed WRAM, OAM, HRAM), with the banked window kinds banked
from bank 1 (ROMX, WRAMX) or bank 0 (VRAM with its one extra bank, SRAM). -/
def bankranges : SectionType → Nat × Nat
  | ROM0  => (0, 0)
  | ROMX  => (1, 511)
  | VRAM  => (0, 1)
  | SRAM  => (0, 15)
  | WRAM0 => (0, 0)
  | WRAMX => (1, 7)
  | OAM   => (0, 0)
  | HRAM  => (0, 0)

/-- `endaddr(type)`. Modelled from the spec: the macro is defined in
link/section.h, which is not under src; spec §4.2 fixes it as
`base address(kind) + max size(kind) - 1`. -/
def endaddr (t : SectionType) : Nat :=
  startaddr t + maxsize t - 1

/-- `struct Section`, restricted to the fields src/link/section.c reads or
writes. -/
structure Section where
  name : String
  type : SectionType
  size : Nat
  bank : Nat
  isBankFixed : Bool
  org : Nat
  isAddressFixed : Bool
  alignMask : Nat
  isAlignFixed : Bool
deriving DecidableEq, Repr

/-- The three build-mode booleans read by the validator (owned by
link/main.c, consumed read-only here). -/
structure Flags where
  is32kMode : Bool
  isWRA0Mode : Bool
  isDmgMode : Bool
deriving DecidableEq, Repr

/-- One diagnostic per `fail(...)` site of `doSanityChecks`, carrying the
values the C format string would print. -/
inductive Diag where
  | romxBank (name : String)
  | wramxBank (name : String)
  | vramBank (name : String)
  | bankRange (name : String) (bank minbank maxbank : Nat)
  | sizeTooBig (size max : Nat)
  | addrAlignMismatch (name : String)
  | addrOutOfRange (name : String) (org low high : Nat)
  | endOverflow (name : String) (endAddr limit : Nat)
deriving DecidableEq, Repr

namespace Diag

def isRomxBank : Diag → Bool
  | romxBank _ => true
  | _ => false

def isWramxBank : Diag → Bool
  | wramxBank _ => true
  | _ => false

def isVramBank : Diag → Bool
  | vramBank _ => true
  | _ => false

def isBankRange : Diag → Bool
  | bankRange _ _ _ _ => true
  | _ => false

def isSizeTooBig : Diag → Bool
  | sizeTooBig _ _ => true
  | _ => false

def isAddrAlignMismatch : Diag → Bool
  | addrAlignMismatch _ => true
  | _ => false

def isAddrOutOfRange : Diag → Bool
  | addrOutOfRange _ _ _ _ => true
  | _ => false

def isEndOverflow : Diag → Bool
  | endOverflow _ _ _ => true
  | _ => false

end Diag

attribute [simp] Diag.isRomxBank Diag.isWramxBank Diag.isVramBank
  Diag.isBankRange Diag.isSizeTooBig Diag.isAddrAlignMismatch
  Diag.isAddrOutOfRange Diag.isEndOverflow

/-- Lines 121-127: under 32k-ROM mode a ROMX section with a fixed bank
other than 1 fails; otherwise its type is retargeted to ROM0. -/
def aliasRomx (f : Flags) (s : Section) : Section × List Diag :=
  if f.is32kMode = true ∧ s.type = ROMX then
    if s.isBankFixed = true ∧ s.bank ≠ 1 then
      (s, [Diag.romxBank s.name])
    else
      ({ s with type := ROM0 }, [])
  else (s, [])

/-- Lines 128-134: under single-bank-WRAM mode a WRAMX section with a
fixed bank other than 1 fails; otherwise its type is re-assigned to WRAMX
(a no-op, kept as written). -/
def aliasWramx (f : Flags) (s : Section) : Section × List Diag :=
  if f.isWRA0Mode = true ∧ s.type = WRAMX then
    if s.isBankFixed = true ∧ s.bank ≠ 1 then
      (s, [Diag.wramxBank s.name])
    else
      ({ s with type := WRAMX }, [])
  else (s, [])

/-- Lines 135-137: under DMG-only mode a VRAM section whose bank field is
1 fails (the C condition does not consult `isBankFixed`). -/
def checkDmgVram (f : Flags) (s : Section) : List Diag :=
  if f.isDmgMode = true ∧ s.type = VRAM ∧ s.bank = 1 then
    [Diag.vramBank s.name]
  else []

/-- Lines 143-144: an alignment mask of 1 is treated as no alignment. -/
def normAlign (s : Section) : Section :=
  if s.isAlignFixed = true ∧ s.alignMask = 1 then
    { s with isAlignFixed := false }
  else s

/-- Lines 146-154: the bank-range check, with the condition exactly as
written in the C source (`bank < minbank && bank > maxbank`). -/
def checkBankRange (s : Section) : List Diag :=
  let minbank := (bankranges s.type).1
  let maxbank := (bankranges s.type).2
  if s.isBankFixed = true ∧ s.bank < minbank ∧ s.bank > maxbank then
    [Diag.bankRange s.name s.bank minbank maxbank]
  else []

/-- Lines 157-159: the size check (the C call passes `size` and the max
as the diagnostic's arguments). -/
def checkSize (s : Section) : List Diag :=
  if s.size > maxsize s.type then
    [Diag.sizeTooBig s.size (maxsize s.type)]
  else []

/-- Lines 163-166: a degenerate bank range forces the bank and the
fixed-bank flag. -/
def tightenBank (s : Section) : Section :=
  if (bankranges s.type).1 = (bankranges s.type).2 then
    { s with bank := (bankranges s.type).1, isBankFixed := true }
  else s

/-- Lines 168-183: the alignment/address interaction. When both
fixed-alignment and fixed-address are set, the mismatch check runs and
`isAlignFixed` is cleared unconditionally afterwards (line 176 sits
outside the inner `if`); when only fixed-alignment is set and
`endaddr(type) & alignMask == startaddr[type]`, the alignment is
tightened into a fixed address. -/
def alignAddr (s : Section) : Section × List Diag :=
  if s.isAlignFixed = true then
    if s.isAddressFixed = true then
      if s.org &&& s.alignMask ≠ 0 then
        ({ s with isAlignFixed := false }, [Diag.addrAlignMismatch s.name])
      else
        ({ s with isAlignFixed := false }, [])
    else if endaddr s.type &&& s.alignMask = startaddr s.type then
      ({ s with org := startaddr s.type, isAlignFixed := false,
                isAddressFixed := true }, [])
    else (s, [])
  else (s, [])

/-- Lines 185-197: the fixed-address range check and the end-address
check; both may fire. -/
def checkAddress (s : Section) : List Diag :=
  if s.isAddressFixed = true then
    (if s.org < startaddr s.type ∨ s.org > endaddr s.type then
      [Diag.addrOutOfRange s.name s.org (startaddr s.type) (endaddr s.type)]
    else []) ++
    (if s.org + s.size > endaddr s.type + 1 then
      [Diag.endOverflow s.name (s.org + s.size) (endaddr s.type + 1)]
    else [])
  else []

/-- `doSanityChecks` (lines 109-200): the whole per-section validator,
returning the normalized section and the diagnostics in emission order. -/
def doSanityChecks (f : Flags) (s : Section) : Section × List Diag :=
  let r1 := aliasRomx f s
  let r2 := aliasWramx f r1.1
  let d3 := checkDmgVram f r2.1
  let s4 := normAlign r2.1
  let d5 := checkBankRange s4
  let d6 := checkSize s4
  let s7 := tightenBank s4
  let r8 := alignAddr s7
  let d9 := checkAddress r8.1
  (r8.1, r1.2 ++ r2.2 ++ d3 ++ d5 ++ d6 ++ r8.2 ++ d9)

/-- The section registry. Modelled from the spec: the underlying
associative-storage primitive (hashmap.c's `HashMap`) is not under src;
spec §4.1/§6 document it as `insert(key,value) -> collided`,
`lookup(key) -> value?`, `forEach(visitor)`, `clear()`, with the hash
collision advisory only. It is modelled as a name-keyed association
list. -/
abbrev Registry := List Section

/-- `hash_GetElement`. Modelled from the spec: point lookup by name; an
absent name gives an absent result and never fails. -/
def hash_GetElement (r : Registry) (name : String) : Option Section :=
  r.find? (fun s => s.name == name)

/-- `hash_AddElement`. Modelled from the spec: adds the pair and reports
whether the underlying hash collided; the collision bit is advisory only
and not derivable from the spec, so it is modelled as false. -/
def hash_AddElement (r : Registry) (s : Section) : Registry × Bool :=
  (s :: r, false)

/-- `sect_AddSection` (lines 84-95): a duplicate name is a fatal error
(`errx` terminates the process, so the registry is left unchanged); the
fatal exit is modelled as `Except.error` carrying the message text. -/
def sect_AddSection (r : Registry) (s : Section) : Except String Registry :=
  if (hash_GetElement r s.name).isSome then
    Except.error ("Section name " ++ s.name ++ " is already in use")
  else
    Except.ok (hash_AddElement r s).1

/-- `sect_GetSection` (lines 97-100). -/
def sect_GetSection (r : Registry) (name : String) : Option Section :=
  hash_GetElement r name

/-- The linker's process-wide state relevant to this core: the global
`sections` map and the file-static `sanityChecksFailed` flag of line 107,
which no code in the file ever resets to false. -/
structure LinkerState where
  sections : Registry
  sanityChecksFailed : Bool
deriving DecidableEq

/-- `sect_CleanupSections` (lines 102-105): empties the map; the failure
flag is untouched. -/
def sect_CleanupSections (st : LinkerState) : LinkerState :=
  { st with sections := [] }

/-- `sect_DoSanityChecks` (lines 202-207): run the validator over every
stored section (mutating each in place), accumulate the global failure
flag, and report a failed verdict (the C code then exits via `errx`)
exactly when the flag is set afterwards. -/
def sect_DoSanityChecks (f : Flags) (st : LinkerState) :
    LinkerState × Bool :=
  let results := (st.sections : List Section).map (doSanityChecks f)
  let failed := st.sanityChecksFailed || results.any (fun p => !p.2.isEmpty)
  (⟨results.map Prod.fst, failed⟩, failed)

/-- The operations a driver can perform on the linker state between
validation sweeps. -/
inductive LinkerOp where
  | add (s : Section)
  | cleanup
  | sweep (f : Flags)

/-- Apply one driver operation. A rejected duplicate insert terminates
the C process; state-wise the registry is unchanged. -/
def applyOp (op : LinkerOp) (st : LinkerState) : LinkerState :=
  match op with
  | .add s =>
    match sect_AddSection st.sections s with
    | .ok r => { st with sections := r }
    | .error _ => st
  | .cleanup => sect_CleanupSections st
  | .sweep f => (sect_DoSanityChecks f st).1

/-- Apply a sequence of driver operations in order. -/
def applyOps : List LinkerOp → LinkerState → LinkerState
  | [], st => st
  | op :: ops, st => applyOps ops (applyOp op st)

/-! ### Shape lemmas for the individual steps -/

lemma aliasRomx_fst (f : Flags) (s : Section) :
    (aliasRomx f s).1 = s ∨ (aliasRomx f s).1 = { s with type := ROM0 } := by
  unfold aliasRomx
  split_ifs <;> simp

lemma aliasWramx_fst (f : Flags) (s : Section) : (aliasWramx f s).1 = s := by
  unfold aliasWramx
  split_ifs with h1 h2
  · rfl
  · obtain ⟨-, ht⟩ := h1
    cases s
    simp_all
  · rfl

lemma normAlign_fst (s : Section) :
    normAlign s = s ∨ normAlign s = { s with isAlignFixed := false } := by
  unfold normAlign
  split_ifs <;> simp

lemma tightenBank_fst (s : Section) :
    tightenBank s = s ∨
      tightenBank s = { s with bank := (bankranges s.type).1,
                               isBankFixed := true } := by
  unfold tightenBank
  split_ifs <;> simp

lemma tightenBank_of_ne (s : Section)
    (h : (bankranges s.type).1 ≠ (bankranges s.type).2) : tightenBank s = s := by
  unfold tightenBank
  split_ifs with hd
  · exact absurd hd h
  · rfl

lemma alignAddr_fst (s : Section) :
    (alignAddr s).1 = s ∨ (alignAddr s).1 = { s with isAlignFixed := false } ∨
      (alignAddr s).1 = { s with org := startaddr s.type, isAlignFixed := false,
                                 isAddressFixed := true } := by
  unfold alignAddr
  split_ifs <;> simp

lemma mem_aliasRomx_diags (f : Flags) (s : Section) (d : Diag)
    (h : d ∈ (aliasRomx f s).2) : d.isRomxBank = true := by
  unfold aliasRomx at h
  split_ifs at h <;> simp_all [Diag.isRomxBank]

lemma mem_aliasWramx_diags (f : Flags) (s : Section) (d : Diag)
    (h : d ∈ (aliasWramx f s).2) : d.isWramxBank = true := by
  unfold aliasWramx at h
  split_ifs at h <;> simp_all [Diag.isWramxBank]

lemma mem_checkDmgVram_diags (f : Flags) (s : Section) (d : Diag)
    (h : d ∈ checkDmgVram f s) : d.isVramBank = true := by
  unfold checkDmgVram at h
  split_ifs at h <;> simp_all [Diag.isVramBank]

/-- The bank-range check of lines 149-154 never emits a diagnostic: its
condition requires `bank < minbank` and `bank > maxbank` at once, and
every row of the bank-range table has `minbank ≤ maxbank`. -/
lemma checkBankRange_eq_nil (s : Section) : checkBankRange s = [] := by
  simp only [checkBankRange]
  split_ifs with h
  · exfalso
    obtain ⟨-, h1, h2⟩ := h
    cases ht : s.type <;> rw [ht] at h1 h2 <;> simp [bankranges] at h1 h2 <;> omega
  · rfl

lemma mem_checkSize_diags (s : Section) (d : Diag)
    (h : d ∈ checkSize s) : d.isSizeTooBig = true := by
  unfold checkSize at h
  split_ifs at h <;> simp_all [Diag.isSizeTooBig]

lemma mem_alignAddr_diags (s : Section) (d : Diag)
    (h : d ∈ (alignAddr s).2) : d.isAddrAlignMismatch = true := by
  unfold alignAddr at h
  split_ifs at h <;> simp_all [Diag.isAddrAlignMismatch]

lemma mem_checkAddress_diags (s : Section) (d : Diag)
    (h : d ∈ checkAddress s) :
    d.isAddrOutOfRange = true ∨ d.isEndOverflow = true := by
  unfold checkAddress at h
  split_ifs at h <;> simp_all [Diag.isAddrOutOfRange, Diag.isEndOverflow]
  rcases h with h | h <;> simp_all

/-! ### Field-preservation lemmas -/

lemma aliasRomx_org (f : Flags) (s : Section) :
    (aliasRomx f s).1.org = s.org := by
  rcases aliasRomx_fst f s with h | h <;> rw [h]

lemma aliasRomx_size (f : Flags) (s : Section) :
    (aliasRomx f s).1.size = s.size := by
  rcases aliasRomx_fst f s with h | h <;> rw [h]

lemma aliasRomx_bank (f : Flags) (s : Section) :
    (aliasRomx f s).1.bank = s.bank := by
  rcases aliasRomx_fst f s with h | h <;> rw [h]

lemma aliasRomx_isBankFixed (f : Flags) (s : Section) :
    (aliasRomx f s).1.isBankFixed = s.isBankFixed := by
  rcases aliasRomx_fst f s with h | h <;> rw [h]

lemma aliasRomx_alignMask (f : Flags) (s : Section) :
    (aliasRomx f s).1.alignMask = s.alignMask := by
  rcases aliasRomx_fst f s with h | h <;> rw [h]

lemma aliasRomx_isAlignFixed (f : Flags) (s : Section) :
    (aliasRomx f s).1.isAlignFixed = s.isAlignFixed := by
  rcases aliasRomx_fst f s with h | h <;> rw [h]

lemma aliasRomx_isAddressFixed (f : Flags) (s : Section) :
    (aliasRomx f s).1.isAddressFixed = s.isAddressFixed := by
  rcases aliasRomx_fst f s with h | h <;> rw [h]

lemma normAlign_type (s : Section) : (normAlign s).type = s.type := by
  rcases normAlign_fst s with h | h <;> rw [h]

lemma normAlign_org (s : Section) : (normAlign s).org = s.org := by
  rcases normAlign_fst s with h | h <;> rw [h]

lemma normAlign_size (s : Section) : (normAlign s).size = s.size := by
  rcases normAlign_fst s with h | h <;> rw [h]

lemma normAlign_bank (s : Section) : (normAlign s).bank = s.bank := by
  rcases normAlign_fst s with h | h <;> rw [h]

lemma normAlign_isBankFixed (s : Section) :
    (normAlign s).isBankFixed = s.isBankFixed := by
  rcases normAlign_fst s with h | h <;> rw [h]

lemma normAlign_alignMask (s : Section) :
    (normAlign s).alignMask = s.alignMask := by
  rcases normAlign_fst s with h | h <;> rw [h]

lemma normAlign_isAddressFixed (s : Section) :
    (normAlign s).isAddressFixed = s.isAddressFixed := by
  rcases normAlign_fst s with h | h <;> rw [h]

lemma tightenBank_type (s : Section) : (tightenBank s).type = s.type := by
  rcases tightenBank_fst s with h | h <;> rw [h]

lemma tightenBank_org (s : Section) : (tightenBank s).org = s.org := by
  rcases tightenBank_fst s with h | h <;> rw [h]

lemma tightenBank_size (s : Section) : (tightenBank s).size = s.size := by
  rcases tightenBank_fst s with h | h <;> rw [h]

lemma tightenBank_alignMask (s : Section) :
    (tightenBank s).alignMask = s.alignMask := by
  rcases tightenBank_fst s with h | h <;> rw [h]

lemma tightenBank_isAlignFixed (s : Section) :
    (tightenBank s).isAlignFixed = s.isAlignFixed := by
  rcases tightenBank_fst s with h | h <;> rw [h]

lemma tightenBank_isAddressFixed (s : Section) :
    (tightenBank s).isAddressFixed = s.isAddressFixed := by
  rcases tightenBank_fst s with h | h <;> rw [h]

lemma alignAddr_type (s : Section) : (alignAddr s).1.type = s.type := by
  rcases alignAddr_fst s with h | h | h <;> rw [h]

lemma alignAddr_size (s : Section) : (alignAddr s).1.size = s.size := by
  rcases alignAddr_fst s with h | h | h <;> rw [h]

lemma alignAddr_bank (s : Section) : (alignAddr s).1.bank = s.bank := by
  rcases alignAddr_fst s with h | h | h <;> rw [h]

lemma alignAddr_isBankFixed (s : Section) :
    (alignAddr s).1.isBankFixed = s.isBankFixed := by
  rcases alignAddr_fst s with h | h | h <;> rw [h]

lemma alignAddr_alignMask (s : Section) :
    (alignAddr s).1.alignMask = s.alignMask := by
  rcases alignAddr_fst s with h | h | h <;> rw [h]

lemma alignAddr_of_addressFixed (s : Section) (h : s.isAddressFixed = true) :
    (alignAddr s).1.org = s.org ∧ (alignAddr s).1.isAddressFixed = true := by
  unfold alignAddr
  split_ifs <;> simp_all

lemma doSanityChecks_fst (f : Flags) (s : Section) :
    (doSanityChecks f s).1 =
      (alignAddr (tightenBank (normAlign (aliasWramx f (aliasRomx f s).1).1))).1 :=
  rfl

/-- Every diagnostic of a full validator run is of one of the seven kinds
that can actually fire: the bank-range kind is absent. -/
lemma mem_doSanityChecks_diags (f : Flags) (s : Section) (d : Diag)
    (h : d ∈ (doSanityChecks f s).2) :
    d.isRomxBank = true ∨ d.isWramxBank = true ∨ d.isVramBank = true ∨
    d.isSizeTooBig = true ∨ d.isAddrAlignMismatch = true ∨
    d.isAddrOutOfRange = true ∨ d.isEndOverflow = true := by
  simp only [doSanityChecks, List.mem_append] at h
  rcases h with ((((((h | h) | h) | h) | h) | h) | h)
  · exact Or.inl (mem_aliasRomx_diags _ _ _ h)
  · exact Or.inr (Or.inl (mem_aliasWramx_diags _ _ _ h))
  · exact Or.inr (Or.inr (Or.inl (mem_checkDmgVram_diags _ _ _ h)))
  · rw [checkBankRange_eq_nil] at h
    simp at h
  · exact Or.inr (Or.inr (Or.inr (Or.inl (mem_checkSize_diags _ _ h))))
  · exact Or.inr (Or.inr (Or.inr (Or.inr (Or.inl (mem_alignAddr_diags _ _ h)))))
  · rcases mem_checkAddress_diags _ _ h with h' | h'
    · exact Or.inr (Or.inr (Or.inr (Or.inr (Or.inr (Or.inl h')))))
    · exact Or.inr (Or.inr (Or.inr (Or.inr (Or.inr (Or.inr h')))))

/-- C1: for every section with a fixed bank, the bank-range check of the
Placement Validator never produces a diagnostic: its condition demands
`bank < minbank` and `bank > maxbank` simultaneously, which no integer
satisfies against the table's ranges, so no bank-range diagnostic ever
appears in a run's output. -/
theorem c1_bank_range_check_never_fires (f : Flags) (s : Section) :
    ((doSanityChecks f s).2.all fun d => !d.isBankRange) = true := by
  rw [List.all_eq_true]
  intro d hd
  rcases mem_doSanityChecks_diags f s d hd with h | h | h | h | h | h | h <;>
    (cases d <;> simp_all)

/-- C2 counterexample: under DMG-only mode, a VRAM section whose bank
field is 1 but whose fixed-bank flag is NOT set is still failed by the
check of line 135 (the C condition never consults `isBankFixed`),
contradicting the claim that only bank-pinned sections are failed. -/
theorem c2_counterexample :
    ((⟨"v", VRAM, 0, 1, false, 0, false, 0, false⟩ : Section).isBankFixed
        = false) ∧
    ((doSanityChecks ⟨false, false, true⟩
        ⟨"v", VRAM, 0, 1, false, 0, false, 0, false⟩).2.any Diag.isVramBank
        = true) := by
  decide

/-- C2 (amended): under DMG-only mode, the validator reports the
VRAM-bank-1 hard failure for a VRAM section if and only if the section's
bank field equals 1, regardless of whether the fixed-bank flag is set. -/
theorem c2_amended_dmg_vram (f : Flags) (s : Section)
    (hdmg : f.isDmgMode = true) (ht : s.type = VRAM) :
    ((doSanityChecks f s).2.any Diag.isVramBank = true) ↔ s.bank = 1 := by
  have hR : aliasRomx f s = (s, []) := by
    unfold aliasRomx
    rw [ht]
    simp
  have hW : aliasWramx f s = (s, []) := by
    unfold aliasWramx
    rw [ht]
    simp
  constructor
  · intro h
    rw [List.any_eq_true] at h
    obtain ⟨d, hd, hv⟩ := h
    simp only [doSanityChecks, hR, hW, checkBankRange_eq_nil, List.mem_append,
      List.not_mem_nil, false_or, or_false] at hd
    rcases hd with ((h | h) | h) | h
    · unfold checkDmgVram at h
      split_ifs at h with hc
      · exact hc.2.2
      · simp at h
    · have hk := mem_checkSize_diags _ _ h
      clear h
      cases d <;> simp_all
    · have hk := mem_alignAddr_diags _ _ h
      clear h
      cases d <;> simp_all
    · rcases mem_checkAddress_diags _ _ h with hk | hk <;>
        (clear h; cases d <;> simp_all)
  · intro hb
    rw [List.any_eq_true]
    refine ⟨Diag.vramBank s.name, ?_, by simp⟩
    simp [doSanityChecks, hR, hW, checkDmgVram, hdmg, ht, hb]

/-- C2 witness: the amended theorem applied to a concrete DMG-mode VRAM
section pinned to bank 1. -/
theorem c2_amended_dmg_vram_witness :
    (doSanityChecks ⟨false, false, true⟩
        ⟨"w", VRAM, 0, 1, true, 0, false, 0, false⟩).2.any Diag.isVramBank
      = true :=
  (c2_amended_dmg_vram ⟨false, false, true⟩
    ⟨"w", VRAM, 0, 1, true, 0, false, 0, false⟩ rfl rfl).mpr rfl

/-- C5: under 32k-ROM mode, a ROMX section with a fixed bank other than 1
gets the hard-failure diagnostic of lines 122-124, and every other ROMX
section is retargeted to ROM0 with no diagnostic from this check. -/
theorem c5_32k_romx (f : Flags) (s : Section)
    (h32 : f.is32kMode = true) (ht : s.type = ROMX) :
    (s.isBankFixed = true ∧ s.bank ≠ 1 →
      (doSanityChecks f s).2.any Diag.isRomxBank = true) ∧
    (¬(s.isBankFixed = true ∧ s.bank ≠ 1) →
      (doSanityChecks f s).1.type = ROM0 ∧
      (doSanityChecks f s).2.any Diag.isRomxBank = false) := by
  constructor
  · intro hbf
    have hR : aliasRomx f s = (s, [Diag.romxBank s.name]) := by
      unfold aliasRomx
      rw [ht]
      simp [h32, hbf.1, hbf.2]
    rw [List.any_eq_true]
    refine ⟨Diag.romxBank s.name, ?_, by simp⟩
    simp [doSanityChecks, hR]
  · intro hnb
    have hR : aliasRomx f s = ({ s with type := ROM0 }, []) := by
      unfold aliasRomx
      rw [ht, if_neg hnb]
      simp [h32]
    constructor
    · rw [doSanityChecks_fst, hR, alignAddr_type, tightenBank_type,
        normAlign_type, aliasWramx_fst]
    · rw [List.any_eq_false]
      intro d hd
      simp only [doSanityChecks, hR, checkBankRange_eq_nil, List.mem_append,
        List.not_mem_nil, false_or, or_false] at hd
      rcases hd with (((h | h) | h) | h) | h
      · have hk := mem_aliasWramx_diags _ _ _ h
        clear h
        cases d <;> simp_all
      · have hk := mem_checkDmgVram_diags _ _ _ h
        clear h
        cases d <;> simp_all
      · have hk := mem_checkSize_diags _ _ h
        clear h
        cases d <;> simp_all
      · have hk := mem_alignAddr_diags _ _ h
        clear h
        cases d <;> simp_all
      · rcases mem_checkAddress_diags _ _ h with hk | hk <;>
          (clear h; cases d <;> simp_all)

/-- C5 witness: the theorem applied to a concrete ROMX section fixed to
bank 2 under 32k-ROM mode; its fixed-bank case yields the diagnostic. -/
theorem c5_32k_romx_witness :
    (doSanityChecks ⟨true, false, false⟩
        ⟨"r", ROMX, 0, 2, true, 0, false, 0, false⟩).2.any Diag.isRomxBank
      = true :=
  (c5_32k_romx ⟨true, false, false⟩
      ⟨"r", ROMX, 0, 2, true, 0, false, 0, false⟩ rfl rfl).1
    ⟨rfl, by decide⟩

/-- C7: whenever the (possibly aliased) region kind of the validated
section has a degenerate bank range, the returned section's bank is that
single value and its fixed-bank flag is true, whatever the input was. -/
theorem c7_degenerate_bank_forced (f : Flags) (s : Section)
    (h : (bankranges (doSanityChecks f s).1.type).1
       = (bankranges (doSanityChecks f s).1.type).2) :
    (doSanityChecks f s).1.bank = (bankranges (doSanityChecks f s).1.type).1 ∧
    (doSanityChecks f s).1.isBankFixed = true := by
  rw [doSanityChecks_fst] at h ⊢
  rw [alignAddr_type, tightenBank_type] at h
  rw [alignAddr_bank, alignAddr_isBankFixed, alignAddr_type, tightenBank_type]
  unfold tightenBank
  rw [if_pos h]
  exact ⟨rfl, rfl⟩

lemma normAlign_of_mask_ne (s : Section) (h : s.alignMask ≠ 1) :
    normAlign s = s := by
  unfold normAlign
  rw [if_neg]
  rintro ⟨-, h2⟩
  exact h h2

lemma alignAddr_both (s : Section) (hA : s.isAlignFixed = true)
    (hF : s.isAddressFixed = true) :
    alignAddr s = ({ s with isAlignFixed := false },
      if s.org &&& s.alignMask ≠ 0 then [Diag.addrAlignMismatch s.name]
      else []) := by
  unfold alignAddr
  rw [if_pos hA, if_pos hF]
  split_ifs <;> rfl

lemma alignAddr_tighten (s : Section) (hA : s.isAlignFixed = true)
    (hF : s.isAddressFixed = false)
    (hc : endaddr s.type &&& s.alignMask = startaddr s.type) :
    alignAddr s =
      ({ s with org := startaddr s.type, isAlignFixed := false,
                isAddressFixed := true }, []) := by
  unfold alignAddr
  rw [if_pos hA, if_neg (by simp [hF]), if_pos hc]

lemma checkAddress_of_fixed (s : Section) (h : s.isAddressFixed = true) :
    checkAddress s =
      (if s.org < startaddr s.type ∨ s.org > endaddr s.type then
        [Diag.addrOutOfRange s.name s.org (startaddr s.type) (endaddr s.type)]
      else []) ++
      (if s.org + s.size > endaddr s.type + 1 then
        [Diag.endOverflow s.name (s.org + s.size) (endaddr s.type + 1)]
      else []) := by
  unfold checkAddress
  rw [if_pos h]

lemma checkAddress_any_out (s : Section) (h : s.isAddressFixed = true) :
    ((checkAddress s).any Diag.isAddrOutOfRange = true) ↔
      (s.org < startaddr s.type ∨ s.org > endaddr s.type) := by
  rw [checkAddress_of_fixed s h]
  split_ifs with h1 h2 <;> simp_all

lemma checkAddress_any_end (s : Section) (h : s.isAddressFixed = true) :
    ((checkAddress s).any Diag.isEndOverflow = true) ↔
      s.org + s.size > endaddr s.type + 1 := by
  rw [checkAddress_of_fixed s h]
  split_ifs with h1 h2 <;> simp_all

/-- A diagnostic of the address-check kinds can only come from the final
address check, which runs on the validator's output section. -/
lemma mem_locate_addr_diag (f : Flags) (s : Section) (d : Diag)
    (hd : d ∈ (doSanityChecks f s).2)
    (hk : d.isAddrOutOfRange = true ∨ d.isEndOverflow = true) :
    d ∈ checkAddress (doSanityChecks f s).1 := by
  simp only [doSanityChecks, List.mem_append] at hd
  rw [doSanityChecks_fst]
  rcases hd with ((((((h | h) | h) | h) | h) | h) | h)
  · have hj := mem_aliasRomx_diags _ _ _ h
    clear h
    exfalso
    cases d <;> simp_all
  · have hj := mem_aliasWramx_diags _ _ _ h
    clear h
    exfalso
    cases d <;> simp_all
  · have hj := mem_checkDmgVram_diags _ _ _ h
    clear h
    exfalso
    cases d <;> simp_all
  · rw [checkBankRange_eq_nil] at h
    simp at h
  · have hj := mem_checkSize_diags _ _ h
    clear h
    exfalso
    cases d <;> simp_all
  · have hj := mem_alignAddr_diags _ _ h
    clear h
    exfalso
    cases d <;> simp_all
  · exact h

lemma endaddr_add_one (t : SectionType) :
    endaddr t + 1 = startaddr t + maxsize t := by
  cases t <;> decide

/-- C4 counterexample: a section with fixed alignment and fixed address
whose address violates the mask gets the mismatch diagnostic, but its
fixed-alignment flag is CLEARED (line 176 runs unconditionally inside the
`isAddressFixed` branch), not left set as the claim states. -/
theorem c4_counterexample :
    ((doSanityChecks ⟨false, false, false⟩
        ⟨"a", ROM0, 0, 0, false, 1, true, 3, true⟩).2.any
        Diag.isAddrAlignMismatch = true) ∧
    ((doSanityChecks ⟨false, false, false⟩
        ⟨"a", ROM0, 0, 0, false, 1, true, 3, true⟩).1.isAlignFixed
        = false) := by
  decide

/-- C4 (amended): when both fixed-alignment and fixed-address are set
(and the mask is not the trivially-normalized value 1), the validator
always clears the fixed-alignment flag, and it emits the mismatch
diagnostic exactly when `address & mask != 0`. -/
theorem c4_amended_align_addr (f : Flags) (s : Section)
    (hA : s.isAlignFixed = true) (hF : s.isAddressFixed = true)
    (hm : s.alignMask ≠ 1) :
    (doSanityChecks f s).1.isAlignFixed = false ∧
    ((doSanityChecks f s).2.any Diag.isAddrAlignMismatch = true ↔
      s.org &&& s.alignMask ≠ 0) := by
  have h1mask : (aliasRomx f s).1.alignMask = s.alignMask :=
    aliasRomx_alignMask f s
  have hnorm : normAlign (aliasWramx f (aliasRomx f s).1).1
      = (aliasRomx f s).1 := by
    rw [aliasWramx_fst]
    exact normAlign_of_mask_ne _ (by rw [h1mask]; exact hm)
  have h7A : (tightenBank (normAlign (aliasWramx f
      (aliasRomx f s).1).1)).isAlignFixed = true := by
    rw [tightenBank_isAlignFixed, hnorm, aliasRomx_isAlignFixed]
    exact hA
  have h7F : (tightenBank (normAlign (aliasWramx f
      (aliasRomx f s).1).1)).isAddressFixed = true := by
    rw [tightenBank_isAddressFixed, hnorm, aliasRomx_isAddressFixed]
    exact hF
  have h7org : (tightenBank (normAlign (aliasWramx f
      (aliasRomx f s).1).1)).org = s.org := by
    rw [tightenBank_org, hnorm, aliasRomx_org]
  have h7mask : (tightenBank (normAlign (aliasWramx f
      (aliasRomx f s).1).1)).alignMask = s.alignMask := by
    rw [tightenBank_alignMask, hnorm, h1mask]
  have hboth := alignAddr_both _ h7A h7F
  constructor
  · rw [doSanityChecks_fst, hboth]
  · constructor
    · intro h
      rw [List.any_eq_true] at h
      obtain ⟨d, hd, hv⟩ := h
      simp only [doSanityChecks, List.mem_append] at hd
      rcases hd with ((((((h | h) | h) | h) | h) | h) | h)
      · have hj := mem_aliasRomx_diags _ _ _ h
        clear h
        cases d <;> simp_all
      · have hj := mem_aliasWramx_diags _ _ _ h
        clear h
        cases d <;> simp_all
      · have hj := mem_checkDmgVram_diags _ _ _ h
        clear h
        cases d <;> simp_all
      · rw [checkBankRange_eq_nil] at h
        simp at h
      · have hj := mem_checkSize_diags _ _ h
        clear h
        cases d <;> simp_all
      · rw [hboth] at h
        simp only at h
        split_ifs at h with hcond
        · rw [h7org, h7mask] at hcond
          exact hcond
        · simp at h
      · rcases mem_checkAddress_diags _ _ h with hj | hj <;>
          (clear h; cases d <;> simp_all)
    · intro hcond
      rw [List.any_eq_true]
      refine ⟨Diag.addrAlignMismatch (tightenBank (normAlign (aliasWramx f
        (aliasRomx f s).1).1)).name, ?_, by simp⟩
      simp only [doSanityChecks, List.mem_append]
      refine Or.inl (Or.inr ?_)
      rw [hboth]
      simp only
      rw [if_pos (by rw [h7org, h7mask]; exact hcond)]
      simp

/-- C4 witness: the amended theorem applied to the concrete mismatching
section of the counterexample. -/
theorem c4_amended_align_addr_witness :
    ((doSanityChecks ⟨false, false, false⟩
        ⟨"a", ROM0, 0, 0, false, 1, true, 3, true⟩).1.isAlignFixed
      = false) ∧
    ((doSanityChecks ⟨false, false, false⟩
        ⟨"a", ROM0, 0, 0, false, 1, true, 3, true⟩).2.any
        Diag.isAddrAlignMismatch = true) :=
  have h := c4_amended_align_addr ⟨false, false, false⟩
    ⟨"a", ROM0, 0, 0, false, 1, true, 3, true⟩ rfl rfl (by decide)
  ⟨h.1, h.2.mpr (by decide)⟩

/-- C3: if only fixed-alignment is set and the region's address span
masked by the alignment collapses to the region's base address
(`endaddr(type) & alignMask == startaddr[type]`, on the possibly aliased
kind the validator ends with), then the validator sets the address to the
region's base, sets fixed-address, and clears fixed-alignment. -/
theorem c3_alignment_tightening (f : Flags) (s : Section)
    (hA : s.isAlignFixed = true) (hF : s.isAddressFixed = false)
    (hc : endaddr (doSanityChecks f s).1.type &&& s.alignMask
        = startaddr (doSanityChecks f s).1.type) :
    (doSanityChecks f s).1.org = startaddr (doSanityChecks f s).1.type ∧
    (doSanityChecks f s).1.isAddressFixed = true ∧
    (doSanityChecks f s).1.isAlignFixed = false := by
  by_cases hm : s.alignMask = 1
  · exfalso
    rw [hm] at hc
    revert hc
    generalize (doSanityChecks f s).1.type = t
    cases t <;> decide
  · have h1mask : (aliasRomx f s).1.alignMask = s.alignMask :=
      aliasRomx_alignMask f s
    have hnorm : normAlign (aliasWramx f (aliasRomx f s).1).1
        = (aliasRomx f s).1 := by
      rw [aliasWramx_fst]
      exact normAlign_of_mask_ne _ (by rw [h1mask]; exact hm)
    have h7A : (tightenBank (normAlign (aliasWramx f
        (aliasRomx f s).1).1)).isAlignFixed = true := by
      rw [tightenBank_isAlignFixed, hnorm, aliasRomx_isAlignFixed]
      exact hA
    have h7F : (tightenBank (normAlign (aliasWramx f
        (aliasRomx f s).1).1)).isAddressFixed = false := by
      rw [tightenBank_isAddressFixed, hnorm, aliasRomx_isAddressFixed]
      exact hF
    have h7mask : (tightenBank (normAlign (aliasWramx f
        (aliasRomx f s).1).1)).alignMask = s.alignMask := by
      rw [tightenBank_alignMask, hnorm, h1mask]
    have hc7 : endaddr (tightenBank (normAlign (aliasWramx f
          (aliasRomx f s).1).1)).type &&&
        (tightenBank (normAlign (aliasWramx f
          (aliasRomx f s).1).1)).alignMask
        = startaddr (tightenBank (normAlign (aliasWramx f
          (aliasRomx f s).1).1)).type := by
      rw [h7mask]
      rw [doSanityChecks_fst, alignAddr_type] at hc
      exact hc
    have htight := alignAddr_tighten _ h7A h7F hc7
    rw [doSanityChecks_fst, htight]
    exact ⟨rfl, rfl, rfl⟩

/-- C3 witness: a ROM0 section with only fixed-alignment and a mask whose
collapse condition holds gets org = 0, fixed-address, no fixed-alignment. -/
theorem c3_alignment_tightening_witness :
    (doSanityChecks ⟨false, false, false⟩
        ⟨"c", ROM0, 0, 0, false, 7, false, 0x4000, true⟩).1.org
      = startaddr (doSanityChecks ⟨false, false, false⟩
          ⟨"c", ROM0, 0, 0, false, 7, false, 0x4000, true⟩).1.type ∧
    (doSanityChecks ⟨false, false, false⟩
        ⟨"c", ROM0, 0, 0, false, 7, false, 0x4000, true⟩).1.isAddressFixed
      = true ∧
    (doSanityChecks ⟨false, false, false⟩
        ⟨"c", ROM0, 0, 0, false, 7, false, 0x4000, true⟩).1.isAlignFixed
      = false :=
  c3_alignment_tightening ⟨false, false, false⟩
    ⟨"c", ROM0, 0, 0, false, 7, false, 0x4000, true⟩ rfl rfl (by decide)

/-- C6: for a section with fixed-address set, the out-of-range diagnostic
fires iff the address leaves [base, end], the end-address diagnostic fires
iff `address + size > end + 1`; in particular address = base with
size = max size passes the end check and size = max size + 1 fails it. -/
theorem c6_fixed_address_checks (f : Flags) (s : Section)
    (h : s.isAddressFixed = true) :
    (((doSanityChecks f s).2.any Diag.isAddrOutOfRange = true) ↔
      (s.org < startaddr (doSanityChecks f s).1.type ∨
       s.org > endaddr (doSanityChecks f s).1.type)) ∧
    (((doSanityChecks f s).2.any Diag.isEndOverflow = true) ↔
      s.org + s.size > endaddr (doSanityChecks f s).1.type + 1) ∧
    (s.org = startaddr (doSanityChecks f s).1.type →
      s.size = maxsize (doSanityChecks f s).1.type →
      (doSanityChecks f s).2.any Diag.isEndOverflow = false) ∧
    (s.org = startaddr (doSanityChecks f s).1.type →
      s.size = maxsize (doSanityChecks f s).1.type + 1 →
      (doSanityChecks f s).2.any Diag.isEndOverflow = true) := by
  have h7F : (tightenBank (normAlign (aliasWramx f
      (aliasRomx f s).1).1)).isAddressFixed = true := by
    rw [tightenBank_isAddressFixed, normAlign_isAddressFixed, aliasWramx_fst,
      aliasRomx_isAddressFixed]
    exact h
  obtain ⟨hro, hrF⟩ := alignAddr_of_addressFixed _ h7F
  have hrorg : (doSanityChecks f s).1.org = s.org := by
    rw [doSanityChecks_fst, hro, tightenBank_org, normAlign_org,
      aliasWramx_fst, aliasRomx_org]
  have hrsize : (doSanityChecks f s).1.size = s.size := by
    rw [doSanityChecks_fst, alignAddr_size, tightenBank_size, normAlign_size,
      aliasWramx_fst, aliasRomx_size]
  have hrF' : (doSanityChecks f s).1.isAddressFixed = true := by
    rw [doSanityChecks_fst]
    exact hrF
  have hsub : ∀ d : Diag, d ∈ checkAddress (doSanityChecks f s).1 →
      d ∈ (doSanityChecks f s).2 := by
    intro d hmem
    simp only [doSanityChecks, List.mem_append]
    exact Or.inr hmem
  have hout : ((doSanityChecks f s).2.any Diag.isAddrOutOfRange = true) ↔
      (s.org < startaddr (doSanityChecks f s).1.type ∨
       s.org > endaddr (doSanityChecks f s).1.type) := by
    rw [← hrorg, ← checkAddress_any_out _ hrF']
    constructor
    · intro hany
      rw [List.any_eq_true] at hany ⊢
      obtain ⟨d, hd, hv⟩ := hany
      exact ⟨d, mem_locate_addr_diag f s d hd (Or.inl hv), hv⟩
    · intro hany
      rw [List.any_eq_true] at hany ⊢
      obtain ⟨d, hd, hv⟩ := hany
      exact ⟨d, hsub d hd, hv⟩
  have hend : ((doSanityChecks f s).2.any Diag.isEndOverflow = true) ↔
      s.org + s.size > endaddr (doSanityChecks f s).1.type + 1 := by
    rw [← hrorg, ← hrsize, ← checkAddress_any_end _ hrF']
    constructor
    · intro hany
      rw [List.any_eq_true] at hany ⊢
      obtain ⟨d, hd, hv⟩ := hany
      exact ⟨d, mem_locate_addr_diag f s d hd (Or.inr hv), hv⟩
    · intro hany
      rw [List.any_eq_true] at hany ⊢
      obtain ⟨d, hd, hv⟩ := hany
      exact ⟨d, hsub d hd, hv⟩
  refine ⟨hout, hend, ?_, ?_⟩
  · intro h1 h2
    have hfalse : ¬((doSanityChecks f s).2.any Diag.isEndOverflow = true) := by
      rw [hend, h1, h2, endaddr_add_one]
      omega
    cases hb : (doSanityChecks f s).2.any Diag.isEndOverflow
    · rfl
    · exact absurd hb hfalse
  · intro h1 h2
    rw [hend, h1, h2, endaddr_add_one]
    omega

/-- C6 witness: a ROM0 section fixed at the base address with size equal
to the region's max size passes the end-address check. -/
theorem c6_fixed_address_checks_witness :
    (doSanityChecks ⟨false, false, false⟩
        ⟨"d", ROM0, 0x4000, 0, false, 0, true, 0, false⟩).2.any
        Diag.isEndOverflow = false :=
  (c6_fixed_address_checks ⟨false, false, false⟩
      ⟨"d", ROM0, 0x4000, 0, false, 0, true, 0, false⟩ rfl).2.2.1
    (by decide) (by decide)

/-- C7 witness: a concrete ROM0 section entering with a wrong, unfixed
bank leaves the validator with bank 0 and the fixed-bank flag set. -/
theorem c7_degenerate_bank_forced_witness :
    (doSanityChecks ⟨false, false, false⟩
        ⟨"z", ROM0, 0, 5, false, 0, false, 0, false⟩).1.bank
      = (bankranges (doSanityChecks ⟨false, false, false⟩
          ⟨"z", ROM0, 0, 5, false, 0, false, 0, false⟩).1.type).1 ∧
    (doSanityChecks ⟨false, false, false⟩
        ⟨"z", ROM0, 0, 5, false, 0, false, 0, false⟩).1.isBankFixed = true :=
  c7_degenerate_bank_forced ⟨false, false, false⟩
    ⟨"z", ROM0, 0, 5, false, 0, false, 0, false⟩ (by decide)

/-! ### Fixpoint lemmas for the idempotence claim -/

lemma aliasRomx_id_of_not (f : Flags) (x : Section)
    (h : ¬(f.is32kMode = true ∧ x.type = ROMX)) : aliasRomx f x = (x, []) := by
  unfold aliasRomx
  rw [if_neg h]

lemma aliasRomx_clean_type (f : Flags) (s : Section)
    (h : (aliasRomx f s).2 = []) (h32 : f.is32kMode = true) :
    (aliasRomx f s).1.type ≠ ROMX := by
  unfold aliasRomx at h ⊢
  split_ifs at h ⊢ with h1 h2 <;> simp_all

lemma aliasWramx_id (f : Flags) (x : Section)
    (h : f.isWRA0Mode = true → x.type = WRAMX → x.isBankFixed = true →
      x.bank = 1) : aliasWramx f x = (x, []) := by
  unfold aliasWramx
  split_ifs with h1 h2
  · obtain ⟨hw, ht⟩ := h1
    obtain ⟨hb, hn⟩ := h2
    exact absurd (h hw ht hb) hn
  · obtain ⟨hw, ht⟩ := h1
    cases x
    simp_all
  · rfl

lemma aliasWramx_clean_guard (f : Flags) (x : Section)
    (h : (aliasWramx f x).2 = []) (hw : f.isWRA0Mode = true)
    (ht : x.type = WRAMX) (hb : x.isBankFixed = true) : x.bank = 1 := by
  unfold aliasWramx at h
  split_ifs at h with h1 h2
  · by_contra hn
    exact h2 ⟨hb, hn⟩
  · exact absurd ⟨hw, ht⟩ h1

lemma checkDmgVram_eq_nil (f : Flags) (x : Section)
    (h : ¬(f.isDmgMode = true ∧ x.type = VRAM ∧ x.bank = 1)) :
    checkDmgVram f x = [] := by
  unfold checkDmgVram
  rw [if_neg h]

lemma checkDmgVram_clean (f : Flags) (x : Section)
    (h : checkDmgVram f x = []) :
    ¬(f.isDmgMode = true ∧ x.type = VRAM ∧ x.bank = 1) := by
  unfold checkDmgVram at h
  split_ifs at h with h1
  exact h1

lemma normAlign_id (x : Section)
    (h : ¬(x.isAlignFixed = true ∧ x.alignMask = 1)) : normAlign x = x := by
  unfold normAlign
  rw [if_neg h]

lemma normAlign_post (x : Section) (h : (normAlign x).isAlignFixed = true) :
    x.alignMask ≠ 1 := by
  unfold normAlign at h
  split_ifs at h with h1
  intro hm
  exact h1 ⟨h, hm⟩

lemma checkSize_eq_nil_iff (x : Section) :
    checkSize x = [] ↔ x.size ≤ maxsize x.type := by
  unfold checkSize
  split_ifs with h
  · simp
    omega
  · simp
    omega

lemma tightenBank_id_of (x : Section)
    (h : (bankranges x.type).1 = (bankranges x.type).2 →
      x.bank = (bankranges x.type).1 ∧ x.isBankFixed = true) :
    tightenBank x = x := by
  unfold tightenBank
  split_ifs with hd
  · obtain ⟨hb, hf⟩ := h hd
    cases x
    simp_all
  · rfl

lemma alignAddr_alignFixed_mono (x : Section)
    (h : (alignAddr x).1.isAlignFixed = true) : x.isAlignFixed = true := by
  unfold alignAddr at h
  split_ifs at h <;> simp_all

lemma alignAddr_not_fixed (x : Section) (h : x.isAlignFixed = false) :
    alignAddr x = (x, []) := by
  unfold alignAddr
  rw [if_neg (by simp [h])]

lemma alignAddr_skip (x : Section) (hF : x.isAddressFixed = false)
    (hc : ¬(endaddr x.type &&& x.alignMask = startaddr x.type)) :
    alignAddr x = (x, []) := by
  unfold alignAddr
  split_ifs <;> simp_all

/-- Re-running the alignment/address step on its own output never changes
the section again and never emits a diagnostic: every mutating branch
clears the fixed-alignment flag, and the skipping branches leave the
section in a skipping state. -/
lemma alignAddr_idem (x : Section) :
    alignAddr (alignAddr x).1 = ((alignAddr x).1, []) := by
  by_cases h1 : x.isAlignFixed = true
  · by_cases h2 : x.isAddressFixed = true
    · rw [alignAddr_both x h1 h2]
      exact alignAddr_not_fixed _ rfl
    · by_cases hc : endaddr x.type &&& x.alignMask = startaddr x.type
      · rw [alignAddr_tighten x h1 (by simpa using h2) hc]
        exact alignAddr_not_fixed _ rfl
      · rw [alignAddr_skip x (by simpa using h2) hc]
        exact alignAddr_skip x (by simpa using h2) hc
  · rw [alignAddr_not_fixed x (by simpa using h1)]
    exact alignAddr_not_fixed x (by simpa using h1)

/-- C9: if a validator run reports no diagnostic, its output section is a
fixpoint: running the validator again returns the identical section with
an empty diagnostic set. In particular a section a previous run left
unchanged with no diagnostics is returned identical, with no diagnostics,
by the next run. -/
theorem c9_validator_idempotent (f : Flags) (s : Section)
    (hclean : (doSanityChecks f s).2 = []) :
    doSanityChecks f (doSanityChecks f s).1 = ((doSanityChecks f s).1, []) := by
  simp only [doSanityChecks, List.append_eq_nil] at hclean
  obtain ⟨⟨⟨⟨⟨⟨h1, h2⟩, h3⟩, h5⟩, h6⟩, h8⟩, h9⟩ := hclean
  rw [aliasWramx_fst] at h3 h5 h6 h8 h9
  rw [doSanityChecks_fst, aliasWramx_fst]
  set s1 := (aliasRomx f s).1 with hs1
  set n4 := normAlign s1 with hn4
  set s7 := tightenBank n4 with hs7
  set r := (alignAddr s7).1 with hr
  have hr_type : r.type = s1.type := by
    rw [hr, alignAddr_type, hs7, tightenBank_type, hn4, normAlign_type]
  have F1 : aliasRomx f r = (r, []) := by
    apply aliasRomx_id_of_not
    rintro ⟨h32, hRt⟩
    have hne := aliasRomx_clean_type f s h1 h32
    rw [← hs1] at hne
    rw [hr_type] at hRt
    exact hne hRt
  have F2 : aliasWramx f r = (r, []) := by
    apply aliasWramx_id
    intro hw hRt hRb
    rw [hr_type] at hRt
    have hnd : (bankranges n4.type).1 ≠ (bankranges n4.type).2 := by
      rw [hn4, normAlign_type, hRt]
      decide
    have htB : tightenBank n4 = n4 := tightenBank_of_ne n4 hnd
    have hrb : r.bank = s1.bank := by
      rw [hr, hs7, htB, alignAddr_bank, hn4, normAlign_bank]
    have hrbf : r.isBankFixed = s1.isBankFixed := by
      rw [hr, hs7, htB, alignAddr_isBankFixed, hn4, normAlign_isBankFixed]
    rw [hrb]
    exact aliasWramx_clean_guard f s1 h2 hw hRt (by rw [← hrbf]; exact hRb)
  have F3 : checkDmgVram f r = [] := by
    apply checkDmgVram_eq_nil
    rintro ⟨hd, hRt, hRb⟩
    rw [hr_type] at hRt
    have hnd : (bankranges n4.type).1 ≠ (bankranges n4.type).2 := by
      rw [hn4, normAlign_type, hRt]
      decide
    have htB : tightenBank n4 = n4 := tightenBank_of_ne n4 hnd
    have hrb : r.bank = s1.bank := by
      rw [hr, hs7, htB, alignAddr_bank, hn4, normAlign_bank]
    exact checkDmgVram_clean f s1 h3 ⟨hd, hRt, by rw [← hrb]; exact hRb⟩
  have F4 : normAlign r = r := by
    apply normAlign_id
    rintro ⟨hAF, hM1⟩
    have h7A : s7.isAlignFixed = true :=
      alignAddr_alignFixed_mono s7 (by rw [← hr]; exact hAF)
    have h4A : n4.isAlignFixed = true := by
      rw [hs7, tightenBank_isAlignFixed] at h7A
      exact h7A
    have hmne : s1.alignMask ≠ 1 :=
      normAlign_post s1 (by rw [← hn4]; exact h4A)
    have hrm : r.alignMask = s1.alignMask := by
      rw [hr, alignAddr_alignMask, hs7, tightenBank_alignMask, hn4,
        normAlign_alignMask]
    rw [hrm] at hM1
    exact hmne hM1
  have F5 : checkBankRange r = [] := checkBankRange_eq_nil r
  have F6 : checkSize r = [] := by
    rw [checkSize_eq_nil_iff]
    have h6' := (checkSize_eq_nil_iff n4).mp h6
    have hrs : r.size = n4.size := by
      rw [hr, alignAddr_size, hs7, tightenBank_size]
    have hrt : r.type = n4.type := by
      rw [hr, alignAddr_type, hs7, tightenBank_type]
    rw [hrs, hrt]
    exact h6'
  have F7 : tightenBank r = r := by
    apply tightenBank_id_of
    intro hdeg
    have hrt : r.type = n4.type := by
      rw [hr, alignAddr_type, hs7, tightenBank_type]
    rw [hrt] at hdeg
    have ht : tightenBank n4
        = { n4 with bank := (bankranges n4.type).1, isBankFixed := true } := by
      unfold tightenBank
      rw [if_pos hdeg]
    constructor
    · rw [hrt, hr, hs7, ht, alignAddr_bank]
    · rw [hr, hs7, ht, alignAddr_isBankFixed]
  have F8 : alignAddr r = (r, []) := by
    rw [hr]
    exact alignAddr_idem s7
  simp only [doSanityChecks, F1, F2, F3, F4, F5, F6, F7, F8, h9,
    List.append_nil, List.nil_append]

/-- C9 witness: the theorem applied to a concrete cleanly-validating
section (its first run tightens the bank and reports nothing). -/
theorem c9_validator_idempotent_witness :
    doSanityChecks ⟨false, false, false⟩
        (doSanityChecks ⟨false, false, false⟩
          ⟨"n", ROM0, 4, 0, false, 0, false, 0, false⟩).1
      = ((doSanityChecks ⟨false, false, false⟩
          ⟨"n", ROM0, 4, 0, false, 0, false, 0, false⟩).1, []) :=
  c9_validator_idempotent ⟨false, false, false⟩
    ⟨"n", ROM0, 4, 0, false, 0, false, 0, false⟩ (by decide)

/-! ### Registry and sweep-state lemmas -/

lemma hash_GetElement_cons (t : Section) (r : Registry) (n : String) :
    hash_GetElement (t :: r) n =
      if (t.name == n) = true then some t else hash_GetElement r n := by
  unfold hash_GetElement
  cases hb : t.name == n
  · rw [List.find?_cons_of_neg _ (by simpa using hb), if_neg (by simp [hb])]
  · rw [List.find?_cons_of_pos _ (by simpa using hb), if_pos (by simp [hb])]

/-- C8: inserting over an existing name is the duplicate-name fatal error
(the registry is not extended); two sections with distinct fresh names
both insert successfully, each is then retrievable by name, and lookup of
any still-absent name stays absent (lookup itself is total). -/
theorem c8_registry_contract (r : Registry) (s1 s2 : Section)
    (hne : s1.name ≠ s2.name)
    (h1 : sect_GetSection r s1.name = none)
    (h2 : sect_GetSection r s2.name = none) :
    (∀ t : Section, (sect_GetSection r t.name).isSome = true →
      sect_AddSection r t =
        Except.error ("Section name " ++ t.name ++ " is already in use")) ∧
    ∃ r1, sect_AddSection r s1 = Except.ok r1 ∧
      ∃ r2, sect_AddSection r1 s2 = Except.ok r2 ∧
        sect_GetSection r2 s1.name = some s1 ∧
        sect_GetSection r2 s2.name = some s2 ∧
        ∀ n : String, n ≠ s1.name → n ≠ s2.name →
          sect_GetSection r n = none → sect_GetSection r2 n = none := by
  have h1' : hash_GetElement r s1.name = none := h1
  have h2' : hash_GetElement r s2.name = none := h2
  have hb12 : (s1.name == s2.name) = false :=
    beq_eq_false_iff_ne.mpr hne
  have hb21 : (s2.name == s1.name) = false :=
    beq_eq_false_iff_ne.mpr (fun h => hne h.symm)
  constructor
  · intro t ht
    unfold sect_AddSection
    rw [if_pos (show (hash_GetElement r t.name).isSome = true from ht)]
  · refine ⟨s1 :: r, ?_, s2 :: s1 :: r, ?_, ?_, ?_, ?_⟩
    · unfold sect_AddSection hash_AddElement
      rw [if_neg (by simp [h1'])]
    · unfold sect_AddSection hash_AddElement
      rw [if_neg]
      rw [hash_GetElement_cons, if_neg (by simp [hb12]), h2']
      simp
    · show hash_GetElement (s2 :: s1 :: r) s1.name = some s1
      rw [hash_GetElement_cons, if_neg (by simp [hb21]),
        hash_GetElement_cons, if_pos (by simp)]
    · show hash_GetElement (s2 :: s1 :: r) s2.name = some s2
      rw [hash_GetElement_cons, if_pos (by simp)]
    · intro n hn1 hn2 hn
      show hash_GetElement (s2 :: s1 :: r) n = none
      have hbn2 : (s2.name == n) = false :=
        beq_eq_false_iff_ne.mpr (fun h => hn2 h.symm)
      have hbn1 : (s1.name == n) = false :=
        beq_eq_false_iff_ne.mpr (fun h => hn1 h.symm)
      rw [hash_GetElement_cons, if_neg (by simp [hbn2]),
        hash_GetElement_cons, if_neg (by simp [hbn1])]
      exact hn

/-- C8 witness: the contract at the empty registry with two concrete
sections named "a" and "b". -/
theorem c8_registry_contract_witness :
    (∀ t : Section,
      (sect_GetSection ([] : Registry) t.name).isSome = true →
      sect_AddSection ([] : Registry) t =
        Except.error ("Section name " ++ t.name ++ " is already in use")) ∧
    ∃ r1, sect_AddSection ([] : Registry)
        ⟨"a", ROM0, 0, 0, false, 0, false, 0, false⟩ = Except.ok r1 ∧
      ∃ r2, sect_AddSection r1
          ⟨"b", ROM0, 0, 0, false, 0, false, 0, false⟩ = Except.ok r2 ∧
        sect_GetSection r2 "a"
          = some ⟨"a", ROM0, 0, 0, false, 0, false, 0, false⟩ ∧
        sect_GetSection r2 "b"
          = some ⟨"b", ROM0, 0, 0, false, 0, false, 0, false⟩ ∧
        ∀ n : String, n ≠ "a" → n ≠ "b" →
          sect_GetSection ([] : Registry) n = none →
          sect_GetSection r2 n = none :=
  c8_registry_contract [] ⟨"a", ROM0, 0, 0, false, 0, false, 0, false⟩
    ⟨"b", ROM0, 0, 0, false, 0, false, 0, false⟩ (by decide) rfl rfl

lemma applyOp_flag (op : LinkerOp) (st : LinkerState)
    (h : st.sanityChecksFailed = true) :
    (applyOp op st).sanityChecksFailed = true := by
  cases op with
  | add s =>
    unfold applyOp
    cases hE : sect_AddSection st.sections s <;> simp [hE, h]
  | cleanup =>
    simp [applyOp, sect_CleanupSections, h]
  | sweep f =>
    simp [applyOp, sect_DoSanityChecks, h]

lemma applyOps_flag (ops : List LinkerOp) (st : LinkerState)
    (h : st.sanityChecksFailed = true) :
    (applyOps ops st).sanityChecksFailed = true := by
  induction ops generalizing st with
  | nil => exact h
  | cons op ops ih => exact ih _ (applyOp_flag op st h)

/-- C10: the sweep failure flag is sticky: once a validate-all pass
reports failure, any sequence of inserts, cleanups and sweeps later, a
validate-all pass still reports failure — clearing the registry does not
clear the flag. -/
theorem c10_failure_flag_sticky (f f' : Flags) (st : LinkerState)
    (ops : List LinkerOp)
    (h : (sect_DoSanityChecks f st).2 = true) :
    (sect_DoSanityChecks f'
      (applyOps ops (sect_DoSanityChecks f st).1)).2 = true := by
  have hflag : (sect_DoSanityChecks f st).1.sanityChecksFailed = true := h
  have h2 := applyOps_flag ops _ hflag
  set Y := applyOps ops (sect_DoSanityChecks f st).1 with hY
  simp [sect_DoSanityChecks, h2]

/-- C10 witness: a failing sweep (oversized ROM0 section), then a registry
cleanup; the next sweep over the now-empty registry still fails. -/
theorem c10_failure_flag_sticky_witness :
    (sect_DoSanityChecks ⟨false, false, false⟩
      (applyOps [LinkerOp.cleanup]
        (sect_DoSanityChecks ⟨false, false, false⟩
          ⟨[⟨"b", ROM0, 0x4001, 0, false, 0, false, 0, false⟩],
            false⟩).1)).2 = true :=
  c10_failure_flag_sticky ⟨false, false, false⟩ ⟨false, false, false⟩
    ⟨[⟨"b", ROM0, 0x4001, 0, false, 0, false, 0, false⟩], false⟩
    [LinkerOp.cleanup] (by decide)

end Rgbds
